import Mathlib

/-!
Shallow embedding of the alert-forwarding core of `alerts-collector`
(`pkg/forwarder/forwarder.go`, `pkg/forwarder/config.go`), together with
theorems settling the specification claims about it.

Modelling conventions:
* Go `string` is Lean `String`; Go byte-slice payloads are `String`.
* A Go map is modelled as an association list in iteration order, and a
  *possibly-nil* Go map as `Option` of that (`none` = the nil map).
  Reading a nil map yields the zero value; writing to a nil map panics,
  which we track with `GoResult`.
* The HTTP client construction and validation performed by the external
  `prometheus/common` library, the body `json.Marshal` serialisation step,
  and the HTTP responses of upstream endpoints are external effects; they
  enter the model as explicit oracle parameters (`clientOk`, `marshal1`,
  `marshal2`, `resp`).  Everything else is translated from the repository
  source.
-/

namespace Collector

/-- Result of running Go code that may panic at runtime. -/
inductive GoResult (α : Type) where
  | ok (a : α)
  | panicked (msg : String)
deriving DecidableEq, Repr

/-- A possibly-nil Go map from `κ` to `β`: `none` is the nil map, `some l`
a (non-nil) map whose iteration order is the order of `l`. -/
abbrev GoMap (κ β : Type) : Type := Option (List (κ × β))

/-- Go map read `m[k]` with comma-ok: a nil map reports every key missing. -/
def goMapFind {κ β : Type} [BEq κ] (m : GoMap κ β) (k : κ) : Option β :=
  match m with
  | none => none
  | some l => l.lookup k

/-- Go map write `m[k] = v`: panics on a nil map, otherwise overwrites the
key in place (or appends it at the end of the iteration order). -/
def goMapWrite {κ β : Type} [BEq κ] (m : GoMap κ β) (k : κ) (v : β) :
    GoResult (GoMap κ β) :=
  match m with
  | none => GoResult.panicked ("assignment to entry in nil map")
  | some l =>
      if l.any (fun p => p.1 == k) then
        GoResult.ok (some (l.map (fun p => if p.1 == k then (p.1, v) else p)))
      else
        GoResult.ok (some (l ++ [(k, v)]))

/-- `APIVersion` from `config.go`: a string tag naming the wire protocol. -/
abbrev APIVersion : Type := String

/-- `APIv1` from `config.go`. -/
def APIv1 : APIVersion := ("v1")

/-- `APIv2` from `config.go`. -/
def APIv2 : APIVersion := ("v2")

/-- `TLSConfig` from `config.go`. -/
structure TLSConfig where
  caFile : String
  certFile : String
  keyFile : String
  serverName : String
  insecureSkipVerify : Bool
deriving DecidableEq, Repr

/-- `BasicAuth` from `config.go`. -/
structure BasicAuth where
  username : String
  password : String
  passwordFile : String
deriving DecidableEq, Repr

/-- `ClientConfig` from `config.go`. -/
structure ClientConfig where
  basicAuth : BasicAuth
  bearerToken : String
  bearerTokenFile : String
  proxyURL : String
  tlsConfig : TLSConfig
deriving DecidableEq, Repr

/-- `EndpointsConfig` from `config.go`.  `StaticAddresses` is a Go slice,
which distinguishes nil (field absent in YAML) from an empty list; we keep
that distinction with `Option`. -/
structure EndpointsConfig where
  staticAddresses : Option (List String)
  scheme : String
  pathPref : String
deriving DecidableEq, Repr

/-- `AlertmanagerConfig` from `config.go`. -/
structure AlertmanagerConfig where
  httpClientConfig : ClientConfig
  endpointsConfig : EndpointsConfig
  timeout : Nat
  apiVersion : APIVersion
deriving DecidableEq, Repr

/-- A resolved `net/url.URL` as used by the forwarder (scheme, host, path). -/
structure URL where
  scheme : String
  host : String
  path : String
deriving DecidableEq, Repr

/-- Go `path.Join` for the shapes this program produces: the left part is
either empty or starts with a slash, the right part likewise; `Join`
concatenates them and collapses the doubled slash.  (Full `path.Clean`
normalisation of `.` and `..` segments never triggers on these inputs.) -/
def pathJoin (a b : String) : String :=
  if a = ("") then b
  else if b = ("") then a
  else if List.isSuffixOf (("/").data) a.data then
    a ++ String.mk (b.data.dropWhile (fun c => c = '/'))
  else if List.isPrefixOf (("/").data) b.data then a ++ b
  else a ++ ("/") ++ b

/-- `Alertmanager` from `forwarder.go`: the endpoint client for one
upstream target (logger and `http.Client` omitted: the former is pure
logging, the latter is summarised by the `clientOk` oracle at
construction time). -/
structure Alertmanager where
  endpoints : List URL
  timeout : Nat
  version : APIVersion
deriving DecidableEq, Repr

/-- Errors produced by `NewAlertmanager`. -/
inductive AmError where
  /-- `failed to create http client for upstream alertmanager`. -/
  | httpClientError
  /-- `failed to get endpoint addresses`. -/
  | configError
deriving DecidableEq, Repr

/-- `NewAlertmanager` from `forwarder.go`.  `clientOk` is the oracle for
`createHTTPClient` (external `prometheus/common` validation).  The source
guard `amcfg.EndpointsConfig == nil || amcfg.EndpointsConfig.StaticAddresses == nil`
is the nil check on the static address slice (the `EndpointsConfig` field
itself is an inline struct value). -/
def NewAlertmanager (clientOk : ClientConfig → Bool) (amcfg : AlertmanagerConfig) :
    Except AmError Alertmanager :=
  if clientOk amcfg.httpClientConfig = false then
    Except.error AmError.httpClientError
  else
    match amcfg.endpointsConfig.staticAddresses with
    | none => Except.error AmError.configError
    | some addrs =>
        Except.ok
          { endpoints :=
              addrs.map (fun addr =>
                { scheme := amcfg.endpointsConfig.scheme
                  host := addr
                  path := pathJoin ("/") amcfg.endpointsConfig.pathPref })
            timeout := amcfg.timeout
            version := amcfg.apiVersion }

/-- Errors produced by `postAlerts`: a failed `client.Do` (transport
failure, including timeout) or a non-2xx response status. -/
inductive PostError where
  | transportError
  | upstreamError (status : Nat)
deriving DecidableEq, Repr

/-- `postAlerts` from `forwarder.go`.  The HTTP exchange itself is
external; `resp` is its outcome: `none` when `client.Do` fails
(network/connect/timeout), `some status` when a response with that status
code arrives.  The source then rejects any status outside the 2xx range
(`resp.StatusCode/100 != 2`). -/
def postAlerts (resp : Option Nat) : Except PostError Unit :=
  match resp with
  | none => Except.error PostError.transportError
  | some status =>
      if status / 100 ≠ 2 then Except.error (PostError.upstreamError status)
      else Except.ok ()

/-- `Forwarder` from `forwarder.go` (logger omitted). -/
structure Forwarder where
  alertmanagers : List Alertmanager
  versions : List APIVersion
deriving DecidableEq, Repr

/-- The version-deduplication loop of `NewForwarder`, carrying the Go
state: the `versions` slice and the `versionPresent` map.  In the source
`versionPresent` is declared with `var` and never initialised, so it is
the nil map. -/
def computeVersionsLoop (ams : List Alertmanager) (versions : List APIVersion)
    (versionPresent : GoMap APIVersion Bool) : GoResult (List APIVersion) :=
  match ams with
  | [] => GoResult.ok versions
  | am :: rest =>
      match goMapFind versionPresent am.version with
      | some _ => computeVersionsLoop rest versions versionPresent
      | none =>
          match goMapWrite versionPresent am.version true with
          | GoResult.panicked msg => GoResult.panicked msg
          | GoResult.ok m => computeVersionsLoop rest (versions ++ [am.version]) m

/-- The distinct-version computation of `NewForwarder` (`forwarder.go`
lines 117–127), starting from the uninitialised — hence nil —
`versionPresent` map of the source. -/
def computeVersions (ams : List Alertmanager) : GoResult (List APIVersion) :=
  computeVersionsLoop ams [] none

/-- The client-construction loop of `NewForwarder`: build an
`Alertmanager` per configured target, aborting on the first error. -/
def buildAlertmanagers (clientOk : ClientConfig → Bool) :
    List AlertmanagerConfig → Except AmError (List Alertmanager)
  | [] => Except.ok []
  | amcfg :: rest =>
      match NewAlertmanager clientOk amcfg with
      | Except.error e => Except.error e
      | Except.ok am =>
          match buildAlertmanagers clientOk rest with
          | Except.error e => Except.error e
          | Except.ok ams => Except.ok (am :: ams)

/-- `NewForwarder` from `forwarder.go`, after the configuration file has
been loaded into a list of `AlertmanagerConfig` (file reading and YAML
decoding are external I/O).  It builds the clients, then runs the
version-deduplication loop. -/
def NewForwarder (clientOk : ClientConfig → Bool) (cfgs : List AlertmanagerConfig) :
    GoResult (Except AmError Forwarder) :=
  match buildAlertmanagers clientOk cfgs with
  | Except.error e => GoResult.ok (Except.error e)
  | Except.ok ams =>
      match computeVersions ams with
      | GoResult.panicked msg => GoResult.panicked msg
      | GoResult.ok vs => GoResult.ok (Except.ok { alertmanagers := ams, versions := vs })

/-- `template.Alert` (the decoded inbound alert handed to `Forward`).
`Labels` and `Annotations` are Go `map[string]string` values; we record
their iteration order as association lists (a genuine Go map never holds
a duplicate key).  Timestamps are kept as their rendered text. -/
structure Alert where
  status : String
  labels : List (String × String)
  annots : List (String × String)
  startsAt : String
  endsAt : String
  generatorURL : String
  fingerprint : String
deriving DecidableEq, Repr

/-- `models.PostableAlert`, the v2 wire record built by `Forward`: the
nested `models.Alert` carries `generatorURL` and `labels`.  The label
sets are possibly-nil Go maps (`GoMap`); whether and how each field
reaches the wire is decided at marshal time by the generated struct's
JSON tags (see `renderPostableAlert`). -/
structure PostableAlert where
  annots : GoMap String String
  endsAt : String
  startsAt : String
  generatorURL : String
  labels : GoMap String String
deriving DecidableEq, Repr

/-- `kvToLabelSet` from `forwarder.go`: `make` a fresh (non-nil) map of
the same size and copy every entry over. -/
def kvToLabelSet (kvs : List (String × String)) : GoMap String String :=
  some kvs

/-- The body of the v2 loop in `Forward`: one `models.PostableAlert`
built from one `template.Alert`. -/
def toPostable (alt : Alert) : PostableAlert :=
  { annots := kvToLabelSet alt.annots
    endsAt := alt.endsAt
    startsAt := alt.startsAt
    generatorURL := alt.generatorURL
    labels := kvToLabelSet alt.labels }

/-- The v2 loop of `Forward`: `pAlerts := make(..., 0, len(alerts))`
followed by `append` of one record per alert, in batch order. -/
def buildPostableAlerts (alerts : List Alert) : List PostableAlert :=
  alerts.foldl (fun pAlerts alt => pAlerts ++ [toPostable alt]) []

/-- Byte-wise `<` on UTF-8 encoded Go strings, on the code-point lists
(UTF-8 encoding preserves code-point order, so this is the order
`encoding/json` sorts map keys by). -/
def charListLt : List Char → List Char → Bool
  | [], [] => false
  | [], _ :: _ => true
  | _ :: _, [] => false
  | a :: as, b :: bs => if a < b then true else if b < a then false else charListLt as bs

/-- Byte-wise `≤` on UTF-8 encoded Go strings, on the code-point lists. -/
def charListLe : List Char → List Char → Bool
  | [], _ => true
  | _ :: _, [] => false
  | a :: as, b :: bs => if a < b then true else if b < a then false else charListLe as bs

/-- Go string `≤`, as used by `encoding/json` to sort map keys. -/
def strLe (a b : String) : Prop := charListLe a.data b.data = true

instance : DecidableRel strLe := fun a b => by
  unfold strLe
  infer_instance

/-- JSON string literal rendering (Go `encoding/json` escaping of the
quote and backslash; the alerts this program handles need no further
escapes, and the choice does not affect any stated property). -/
def jstr (s : String) : String :=
  ("\"") ++
    s.data.foldl
      (fun acc c =>
        if c = '"' then acc ++ ("\\\"")
        else if c = '\\' then acc ++ ("\\\\")
        else acc ++ String.mk [c]) ("") ++
  ("\"")

/-- `encoding/json` marshalling of a non-nil `map[string]string`: collect
the keys, sort them byte-wise, and emit `key:value` pairs in that order. -/
def renderKVMap (es : List (String × String)) : String :=
  ("\x7b") ++
    String.intercalate (",")
      ((List.insertionSort strLe (es.map Prod.fst)).map
        (fun k => jstr k ++ (":") ++ jstr ((es.lookup k).getD ("")))) ++
  ("\x7d")

/-- `encoding/json` marshalling of a possibly-nil `map[string]string`:
the nil map becomes `null`, any other map an explicit (possibly empty)
JSON object. -/
def renderGoMap (m : GoMap String String) : String :=
  match m with
  | none => ("null")
  | some es => renderKVMap es

/-- `encoding/json` marshalling of one `template.Alert` for the v1 API:
a struct, so the fields appear in declaration order under their JSON
tags. -/
def renderAlertV1 (alt : Alert) : String :=
  ("\x7b") ++
    jstr ("status") ++ (":") ++ jstr alt.status ++ (",") ++
    jstr ("labels") ++ (":") ++ renderKVMap alt.labels ++ (",") ++
    jstr ("annotations") ++ (":") ++ renderKVMap alt.annots ++ (",") ++
    jstr ("startsAt") ++ (":") ++ jstr alt.startsAt ++ (",") ++
    jstr ("endsAt") ++ (":") ++ jstr alt.endsAt ++ (",") ++
    jstr ("generatorURL") ++ (":") ++ jstr alt.generatorURL ++ (",") ++
    jstr ("fingerprint") ++ (":") ++ jstr alt.fingerprint ++
  ("\x7d")

/-- The length a Go map reports: a nil map has length zero. -/
def goMapLen (m : GoMap String String) : Nat :=
  (m.getD []).length

/-- `encoding/json` marshalling of one `models.PostableAlert`
(alertmanager v0.21.0) for the v2 API: own fields first, then the
embedded `models.Alert` fields.  The generated struct tags drive field
presence: `annotations` is tagged `omitempty`, so a label set with no
entries (nil or empty) is dropped from the record; `generatorURL`
(string kind) is likewise dropped when empty; `endsAt`/`startsAt` carry
`omitempty` too but are struct-kind `strfmt.DateTime` values, on which
`omitempty` has no effect, so they are always emitted; `labels` has no
`omitempty` and is always emitted. -/
def renderPostableAlert (pa : PostableAlert) : String :=
  ("\x7b") ++
    String.intercalate (",")
      ((if goMapLen pa.annots = 0 then []
        else [jstr ("annotations") ++ (":") ++ renderGoMap pa.annots]) ++
       [jstr ("endsAt") ++ (":") ++ jstr pa.endsAt,
        jstr ("startsAt") ++ (":") ++ jstr pa.startsAt] ++
       (if pa.generatorURL = ("") then []
        else [jstr ("generatorURL") ++ (":") ++ jstr pa.generatorURL]) ++
       [jstr ("labels") ++ (":") ++ renderGoMap pa.labels]) ++
  ("\x7d")

/-- `encoding/json` marshalling of a slice: each element in slice order,
comma separated. -/
def renderListAux {α : Type} (f : α → String) : List α → String
  | [] => ("")
  | [x] => f x
  | x :: y :: xs => f x ++ (",") ++ renderListAux f (y :: xs)

/-- `encoding/json` marshalling of a slice, with the array brackets. -/
def renderArr {α : Type} (f : α → String) (xs : List α) : String :=
  ("[") ++ renderListAux f xs ++ ("]")

/-- The v1 encoder: `json.Marshal(alerts)` in `Forward`. -/
def encodeV1 (alerts : List Alert) : String :=
  renderArr renderAlertV1 alerts

/-- The v2 encoder: the `PostableAlerts` construction loop of `Forward`
followed by `json.Marshal(pAlerts)`. -/
def encodeV2 (alerts : List Alert) : String :=
  renderArr renderPostableAlert (buildPostableAlerts alerts)

/-- Errors returned by `Forward`. -/
inductive ForwardError where
  /-- An encoder's `json.Marshal` failed; `Forward` returns that error. -/
  | encodingError (msg : String)
  /-- `failed to send %d alerts to all alertmanagers`, carrying
  `len(alerts)`. -/
  | allFailed (numAlerts : Nat)
deriving DecidableEq, Repr

instance {ε α : Type} [DecidableEq ε] [DecidableEq α] : DecidableEq (Except ε α) := fun a b =>
  match a, b with
  | Except.error e, Except.error f =>
      if h : e = f then Decidable.isTrue (by rw [h]) else Decidable.isFalse (by simp [h])
  | Except.error _, Except.ok _ => Decidable.isFalse (by simp)
  | Except.ok _, Except.error _ => Decidable.isFalse (by simp)
  | Except.ok x, Except.ok y =>
      if h : x = y then Decidable.isTrue (by rw [h]) else Decidable.isFalse (by simp [h])

/-- The observable behaviour of one `Forward` call: its return value plus
the trace of effects the claims talk about — which protocol encoders ran,
which `(endpoint URL, version)` units were dispatched over the network,
and the final success counter. -/
structure ForwardTrace where
  result : Except ForwardError Unit
  encoderCalls : List APIVersion
  dispatched : List (URL × APIVersion)
  numSuccess : Nat
deriving DecidableEq, Repr

/-- One iteration of the encoding loop of `Forward` (the `switch` on the
version).  `marshal1`/`marshal2` are the oracles for the external
`json.Marshal` runs on the two wire shapes; the `switch` has no default
case, so an unknown version leaves the payload bytes nil (`none`). -/
def encodeVersion (marshal1 : List Alert → Except String String)
    (marshal2 : List PostableAlert → Except String String)
    (alerts : List Alert) (version : APIVersion) :
    Except String (Option String) :=
  if version = APIv1 then
    match marshal1 alerts with
    | Except.error e => Except.error e
    | Except.ok b => Except.ok (some b)
  else if version = APIv2 then
    match marshal2 (buildPostableAlerts alerts) with
    | Except.error e => Except.error e
    | Except.ok b => Except.ok (some b)
  else
    Except.ok none

/-- The encoding loop of `Forward` over `fwder.versions`: records which
encoders were invoked and either the payload table or the first
encoding error (which aborts the loop, and with it the whole call). -/
def encodePhase (marshal1 : List Alert → Except String String)
    (marshal2 : List PostableAlert → Except String String)
    (alerts : List Alert) :
    List APIVersion → List APIVersion × Except String (List (APIVersion × Option String))
  | [] => ([], Except.ok [])
  | v :: rest =>
      let calls := if v = APIv1 ∨ v = APIv2 then [v] else []
      match encodeVersion marshal1 marshal2 alerts v with
      | Except.error e => (calls, Except.error e)
      | Except.ok b =>
          match encodePhase marshal1 marshal2 alerts rest with
          | (restCalls, Except.error e) => (calls ++ restCalls, Except.error e)
          | (restCalls, Except.ok tbl) => (calls ++ restCalls, Except.ok ((v, b) :: tbl))

/-- The dispatch units of `Forward`: one per `(alertmanager, endpoint)`
pair, with the `/api/{version}/alerts` suffix joined onto the endpoint
path, tagged with the target's version. -/
def dispatchUnits (fw : Forwarder) : List (URL × APIVersion) :=
  fw.alertmanagers.foldl
    (fun acc am =>
      acc ++
        am.endpoints.map (fun u =>
          ({ u with path := pathJoin u.path (("/api/") ++ am.version ++ ("/alerts")) },
            am.version)))
    []

/-- `Forward` from `forwarder.go`.  `resp` is the oracle for the HTTP
response each dispatched unit observes (the goroutines are independent
and only join on the `WaitGroup`, so the outcome is the per-unit fold of
`postAlerts` results into the atomic success counter).  An empty batch
returns immediately; an encoding error aborts before any dispatch;
otherwise every unit is attempted and the call succeeds exactly when the
counter is positive. -/
def Forward (marshal1 : List Alert → Except String String)
    (marshal2 : List PostableAlert → Except String String)
    (resp : URL → APIVersion → Option Nat)
    (fw : Forwarder) (alerts : List Alert) : ForwardTrace :=
  if alerts = [] then
    { result := Except.ok (), encoderCalls := [], dispatched := [], numSuccess := 0 }
  else
    match encodePhase marshal1 marshal2 alerts fw.versions with
    | (calls, Except.error e) =>
        { result := Except.error (ForwardError.encodingError e)
          encoderCalls := calls
          dispatched := []
          numSuccess := 0 }
    | (calls, Except.ok _) =>
        let units := dispatchUnits fw
        let numSuccess :=
          (units.filter (fun uv => (postAlerts (resp uv.1 uv.2)).toBool)).length
        { result :=
            if numSuccess > 0 then Except.ok ()
            else Except.error (ForwardError.allFailed alerts.length)
          encoderCalls := calls
          dispatched := units
          numSuccess := numSuccess }

/-! Concrete fixtures used by witnesses and counterexamples. -/

/-- A client configuration with every optional security field empty. -/
def emptyClientCfg : ClientConfig :=
  { basicAuth := { username := (""), password := (""), passwordFile := ("") }
    bearerToken := ("")
    bearerTokenFile := ("")
    proxyURL := ("")
    tlsConfig :=
      { caFile := (""), certFile := (""), keyFile := (""), serverName := ("")
        insecureSkipVerify := false } }

/-- One upstream target with a single static address and the v1 protocol. -/
def sampleCfg : AlertmanagerConfig :=
  { httpClientConfig := emptyClientCfg
    endpointsConfig :=
      { staticAddresses := some [("am1:9093")], scheme := ("https"), pathPref := ("") }
    timeout := 5
    apiVersion := APIv1 }

/-- A one-endpoint v1 forwarder (the value `NewForwarder` would build from
`sampleCfg`, were its version loop not broken). -/
def sampleFw : Forwarder :=
  { alertmanagers :=
      [{ endpoints := [{ scheme := ("https"), host := ("am1:9093"), path := ("/") }]
         timeout := 5, version := APIv1 }]
    versions := [APIv1] }

/-- A two-endpoint v1 forwarder over two targets. -/
def sampleFwTwo : Forwarder :=
  { alertmanagers :=
      [{ endpoints := [{ scheme := ("https"), host := ("am1:9093"), path := ("/") }]
         timeout := 5, version := APIv1 },
       { endpoints := [{ scheme := ("https"), host := ("am2:9093"), path := ("/") }]
         timeout := 5, version := APIv1 }]
    versions := [APIv1] }

/-- A single decoded alert. -/
def sampleAlert : Alert :=
  { status := ("firing")
    labels := [(("alertname"), ("foo")), (("severity"), ("critical"))]
    annots := []
    startsAt := ("2021-01-01T00:00:00Z")
    endsAt := ("0001-01-01T00:00:00Z")
    generatorURL := ("")
    fingerprint := ("") }

/-- A marshalling oracle that always succeeds on the v1 shape. -/
def mOK1 : List Alert → Except String String := fun as => Except.ok (encodeV1 as)

/-- A marshalling oracle that always succeeds on the v2 shape. -/
def mOK2 : List PostableAlert → Except String String :=
  fun ps => Except.ok (renderArr renderPostableAlert ps)

/-! Claim theorems. -/

/-- C1 (code evaluated at the failing input): whenever the target
construction loop of `NewForwarder` succeeds with at least one
`Alertmanager`, the version-deduplication loop writes to the
never-initialised `versionPresent` map and the call panics — the distinct
version set is never computed for any non-empty target configuration. -/
theorem newForwarder_panics_when_any_target_configured
    (clientOk : ClientConfig → Bool) (cfgs : List AlertmanagerConfig)
    (ams : List Alertmanager)
    (hbuild : buildAlertmanagers clientOk cfgs = Except.ok ams) (hne : ams ≠ []) :
    NewForwarder clientOk cfgs = GoResult.panicked ("assignment to entry in nil map") := by
  obtain ⟨a, rest, rfl⟩ := List.exists_cons_of_ne_nil hne
  simp [NewForwarder, hbuild, computeVersions, computeVersionsLoop, goMapFind, goMapWrite]

/-- Witness for C1: a concrete single-target configuration makes
`NewForwarder` panic. -/
theorem newForwarder_panics_witness :
    NewForwarder (fun _ => true) [sampleCfg] =
      GoResult.panicked ("assignment to entry in nil map") :=
  newForwarder_panics_when_any_target_configured (fun _ => true) [sampleCfg]
    [{ endpoints := [{ scheme := ("https"), host := ("am1:9093"), path := ("/") }]
       timeout := 5, version := APIv1 }]
    (by decide) (by decide)

/-- C2: `Forward` on an empty batch returns success immediately: no
encoder runs, no dispatch unit is launched, and the success counter stays
at zero. -/
theorem forward_empty_batch_noop
    (marshal1 : List Alert → Except String String)
    (marshal2 : List PostableAlert → Except String String)
    (resp : URL → APIVersion → Option Nat) (fw : Forwarder) :
    Forward marshal1 marshal2 resp fw [] =
      { result := Except.ok (), encoderCalls := [], dispatched := [], numSuccess := 0 } := by
  rfl

/-- C5: `postAlerts` succeeds exactly when a response arrived with a 2xx
status; a transport failure yields the transport error, and a non-2xx
response yields the upstream error carrying the status. -/
theorem postAlerts_success_iff_2xx (resp : Option Nat) :
    ((postAlerts resp = Except.ok ()) ↔ ∃ s, resp = some s ∧ 200 ≤ s ∧ s ≤ 299) ∧
    (resp = none → postAlerts resp = Except.error PostError.transportError) ∧
    (∀ s, resp = some s → s / 100 ≠ 2 →
      postAlerts resp = Except.error (PostError.upstreamError s)) := by
  refine ⟨?_, ?_, ?_⟩
  · cases resp with
    | none => simp [postAlerts]
    | some s =>
        by_cases h : s / 100 = 2
        · simp only [postAlerts, h, ne_eq, not_true_eq_false, if_false]
          constructor
          · intro _
            exact ⟨s, rfl, by omega, by omega⟩
          · intro _
            trivial
        · simp only [postAlerts, if_pos h]
          constructor
          · intro hcontra
            exact absurd hcontra (by simp)
          · rintro ⟨s', hs', h1, h2⟩
            cases hs'
            omega
  · intro h
    cases h
    rfl
  · intro s hs hne
    cases hs
    simp [postAlerts, hne]

/-- Witness for C5: concrete 2xx, non-2xx and transport outcomes. -/
theorem postAlerts_success_iff_2xx_witness :
    postAlerts (some 204) = Except.ok () ∧
    postAlerts (some 500) = Except.error (PostError.upstreamError 500) ∧
    postAlerts none = Except.error PostError.transportError :=
  ⟨(postAlerts_success_iff_2xx (some 204)).1.mpr ⟨204, rfl, by decide, by decide⟩,
    (postAlerts_success_iff_2xx (some 500)).2.2 500 rfl (by decide),
    (postAlerts_success_iff_2xx none).2.1 rfl⟩

/-- C6 counterexample: a target whose configuration declares an explicitly
empty address list — that is, no network address at all — is accepted by
`NewAlertmanager`, which returns a client with zero endpoints instead of
the configuration error. -/
theorem newAlertmanager_accepts_empty_address_list :
    NewAlertmanager (fun _ => true)
      { httpClientConfig := emptyClientCfg
        endpointsConfig := { staticAddresses := some [], scheme := ("https"), pathPref := ("") }
        timeout := 5
        apiVersion := APIv1 } =
      Except.ok { endpoints := [], timeout := 5, version := APIv1 } := by
  decide

/-- C6 (amended): given the HTTP client construction succeeds,
`NewAlertmanager` fails with the configuration error exactly when the
static address list is absent (nil); any present list — even an empty
one — yields a client with one endpoint per listed address. -/
theorem newAlertmanager_config_error_iff_nil_addresses
    (clientOk : ClientConfig → Bool) (amcfg : AlertmanagerConfig)
    (hclient : clientOk amcfg.httpClientConfig = true) :
    (NewAlertmanager clientOk amcfg = Except.error AmError.configError ↔
      amcfg.endpointsConfig.staticAddresses = none) ∧
    ∀ addrs, amcfg.endpointsConfig.staticAddresses = some addrs →
      NewAlertmanager clientOk amcfg =
        Except.ok
          { endpoints :=
              addrs.map (fun addr =>
                { scheme := amcfg.endpointsConfig.scheme
                  host := addr
                  path := pathJoin ("/") amcfg.endpointsConfig.pathPref })
            timeout := amcfg.timeout
            version := amcfg.apiVersion } := by
  constructor
  · cases h : amcfg.endpointsConfig.staticAddresses <;>
      simp [NewAlertmanager, hclient, h]
  · intro addrs h
    simp [NewAlertmanager, hclient, h]

/-- Witness for the amended C6: a nil address list is rejected, a
one-address list accepted. -/
theorem newAlertmanager_config_error_iff_nil_addresses_witness :
    NewAlertmanager (fun _ => true)
      { httpClientConfig := emptyClientCfg
        endpointsConfig := { staticAddresses := none, scheme := ("https"), pathPref := ("") }
        timeout := 5
        apiVersion := APIv1 } = Except.error AmError.configError ∧
    NewAlertmanager (fun _ => true) sampleCfg =
      Except.ok
        { endpoints := [{ scheme := ("https"), host := ("am1:9093"), path := ("/") }]
          timeout := 5, version := APIv1 } := by
  constructor
  · exact (newAlertmanager_config_error_iff_nil_addresses (fun _ => true) _ rfl).1.mpr rfl
  · have h := (newAlertmanager_config_error_iff_nil_addresses (fun _ => true) sampleCfg rfl).2
      [("am1:9093")] (by decide)
    exact h.trans (by decide)

/-- C7 counterexample: an alert with empty annotations does NOT produce
an explicit empty annotations mapping on the wire.  The full v2 payload
for such an alert is exhibited — it contains no annotations field at all
(the `omitempty` tag drops it) — and a record holding the explicit empty
mapping marshals to exactly the same bytes as one holding the nil
(omitted) map, so the wire record cannot show the claimed distinction. -/
theorem v2_empty_annots_field_omitted :
    encodeV2 [{ status := (""), labels := [(("alertname"), ("foo"))], annots := []
                startsAt := ("S"), endsAt := ("E"), generatorURL := ("G")
                fingerprint := ("") }] =
      ("[\x7b\"endsAt\":\"E\",\"startsAt\":\"S\",\"generatorURL\":\"G\",\"labels\":\x7b\"alertname\":\"foo\"\x7d\x7d]") ∧
    renderPostableAlert
        { annots := some [], endsAt := ("E"), startsAt := ("S")
          generatorURL := ("G"), labels := some [] } =
      renderPostableAlert
        { annots := none, endsAt := ("E"), startsAt := ("S")
          generatorURL := ("G"), labels := some [] } := by
  decide

/-- C7 (amended): the v2 translation never panics and never builds a nil
label set — `kvToLabelSet` always yields an explicit (possibly empty)
mapping in the in-memory record — and empty labels do reach the wire as
the explicit empty mapping, since the labels field carries no `omitempty`
and is always emitted; but the annotations field is tagged `omitempty`,
so empty annotations are dropped from the wire record, indistinguishable
from an omitted (nil) field. -/
theorem v2_encoder_empty_labels_explicit_empty_annots_omitted (alt : Alert) :
    (toPostable alt).annots = some alt.annots ∧
    (toPostable alt).labels = some alt.labels ∧
    (alt.labels = [] → renderGoMap ((toPostable alt).labels) = ("\x7b\x7d")) ∧
    (alt.annots = [] →
      renderPostableAlert (toPostable alt) =
        renderPostableAlert { toPostable alt with annots := none }) := by
  refine ⟨rfl, rfl, ?_, ?_⟩
  · intro h
    simp [toPostable, kvToLabelSet, h]
    rfl
  · intro h
    simp [renderPostableAlert, toPostable, kvToLabelSet, goMapLen, h]

/-- Witness for the amended C7: a concrete alert with empty labels and
annotations — labels reach the wire as the explicit empty mapping, while
the record equals the one with the annotations map omitted outright. -/
theorem v2_encoder_empty_labels_explicit_empty_annots_omitted_witness :
    renderGoMap ((toPostable { status := (""), labels := [], annots := [], startsAt := ("S")
                               endsAt := ("E"), generatorURL := ("G")
                               fingerprint := ("") }).labels) = ("\x7b\x7d") ∧
    renderPostableAlert (toPostable { status := (""), labels := [], annots := []
                                      startsAt := ("S"), endsAt := ("E")
                                      generatorURL := ("G"), fingerprint := ("") }) =
      renderPostableAlert
        { toPostable { status := (""), labels := [], annots := [], startsAt := ("S")
                       endsAt := ("E"), generatorURL := ("G"), fingerprint := ("") } with
          annots := none } :=
  ⟨(v2_encoder_empty_labels_explicit_empty_annots_omitted _).2.2.1 rfl,
    (v2_encoder_empty_labels_explicit_empty_annots_omitted _).2.2.2 rfl⟩

/-- C10: with zero configured targets `NewForwarder` succeeds with an
empty target and version set, and `Forward` on any non-empty batch then
reports the all-endpoints-failed error carrying the batch size, not a
vacuous success. -/
theorem forward_zero_targets_reports_failure
    (clientOk : ClientConfig → Bool)
    (marshal1 : List Alert → Except String String)
    (marshal2 : List PostableAlert → Except String String)
    (resp : URL → APIVersion → Option Nat)
    (alerts : List Alert) (hne : alerts ≠ []) :
    NewForwarder clientOk [] = GoResult.ok (Except.ok { alertmanagers := [], versions := [] }) ∧
    Forward marshal1 marshal2 resp { alertmanagers := [], versions := [] } alerts =
      { result := Except.error (ForwardError.allFailed alerts.length)
        encoderCalls := []
        dispatched := []
        numSuccess := 0 } := by
  refine ⟨rfl, ?_⟩
  simp [Forward, hne, encodePhase, dispatchUnits]

/-- Witness for C10: the zero-target forwarder fails a concrete
one-alert batch with the batch size in the error. -/
theorem forward_zero_targets_reports_failure_witness :
    Forward mOK1 mOK2 (fun _ _ => some 200) { alertmanagers := [], versions := [] }
        [sampleAlert] =
      { result := Except.error (ForwardError.allFailed 1)
        encoderCalls := []
        dispatched := []
        numSuccess := 0 } := by
  have h := forward_zero_targets_reports_failure (fun _ => true) mOK1 mOK2
    (fun _ _ => some 200) [sampleAlert] (by decide)
  exact h.2

/-- A response is a 2xx outcome: a status arrived and lies in 200-299. -/
def is2xx (r : Option Nat) : Bool :=
  match r with
  | none => false
  | some s => decide (200 ≤ s) && decide (s ≤ 299)

/-- `postAlerts` reports success exactly on the 2xx outcomes. -/
theorem postAlerts_toBool_eq_is2xx (r : Option Nat) :
    (postAlerts r).toBool = is2xx r := by
  cases r with
  | none => rfl
  | some s =>
      by_cases h : s / 100 = 2
      · have h1 : 200 ≤ s := by omega
        have h2 : s ≤ 299 := by omega
        simp [postAlerts, is2xx, h, h1, h2, Except.toBool]
      · have h1 : ¬(200 ≤ s) ∨ ¬(s ≤ 299) := by omega
        rcases h1 with h1 | h1 <;> simp [postAlerts, is2xx, h, h1, Except.toBool]

/-- If some configured version fails to encode, the encoding loop of
`Forward` ends in an error. -/
theorem encodePhase_error_of_mem
    (m1 : List Alert → Except String String)
    (m2 : List PostableAlert → Except String String)
    (alerts : List Alert) :
    ∀ vs : List APIVersion,
      (∃ v ∈ vs, ∃ e, encodeVersion m1 m2 alerts v = Except.error e) →
      ∃ e, (encodePhase m1 m2 alerts vs).2 = Except.error e := by
  intro vs
  induction vs with
  | nil =>
      rintro ⟨v, hv, _⟩
      cases hv
  | cons v rest ih =>
      rintro ⟨v', hv', e', he'⟩
      cases hev : encodeVersion m1 m2 alerts v with
      | error e =>
          exact ⟨e, by simp [encodePhase, hev]⟩
      | ok b =>
          rcases List.mem_cons.mp hv' with rfl | hmem
          · rw [hev] at he'
            cases he'
          · obtain ⟨e, hrest⟩ := ih ⟨v', hmem, e', he'⟩
            refine ⟨e, ?_⟩
            rcases hsplit : encodePhase m1 m2 alerts rest with ⟨rc, r⟩
            rw [hsplit] at hrest
            simp only at hrest
            cases r with
            | error e2 =>
                cases hrest
                simp [encodePhase, hev, hsplit]
            | ok tbl => cases hrest

/-- C4: on a non-empty batch, if the encoder for any configured version
fails, `Forward` returns the encoding error with no dispatch unit ever
launched and the success counter untouched — no network call, no partial
delivery. -/
theorem forward_encoding_failure_aborts
    (m1 : List Alert → Except String String)
    (m2 : List PostableAlert → Except String String)
    (resp : URL → APIVersion → Option Nat)
    (fw : Forwarder) (alerts : List Alert)
    (hne : alerts ≠ [])
    (hfail : ∃ v ∈ fw.versions, ∃ e, encodeVersion m1 m2 alerts v = Except.error e) :
    (∃ msg, (Forward m1 m2 resp fw alerts).result =
        Except.error (ForwardError.encodingError msg)) ∧
    (Forward m1 m2 resp fw alerts).dispatched = [] ∧
    (Forward m1 m2 resp fw alerts).numSuccess = 0 := by
  obtain ⟨e, he⟩ := encodePhase_error_of_mem m1 m2 alerts fw.versions hfail
  rcases hsplit : encodePhase m1 m2 alerts fw.versions with ⟨calls, r⟩
  rw [hsplit] at he
  simp only at he
  cases r with
  | error e2 =>
      cases he
      refine ⟨⟨e, ?_⟩, ?_, ?_⟩ <;> simp [Forward, hne, hsplit]
  | ok tbl => cases he

/-- Witness for C4: a failing v1 marshal on a concrete one-target
forwarder aborts the call before any dispatch. -/
theorem forward_encoding_failure_aborts_witness :
    (∃ msg, (Forward (fun _ => Except.error ("boom")) mOK2 (fun _ _ => some 200) sampleFw
        [sampleAlert]).result = Except.error (ForwardError.encodingError msg)) ∧
    (Forward (fun _ => Except.error ("boom")) mOK2 (fun _ _ => some 200) sampleFw
        [sampleAlert]).dispatched = [] ∧
    (Forward (fun _ => Except.error ("boom")) mOK2 (fun _ _ => some 200) sampleFw
        [sampleAlert]).numSuccess = 0 :=
  forward_encoding_failure_aborts _ _ _ sampleFw [sampleAlert] (by decide)
    ⟨APIv1, by decide, ("boom"), by decide⟩

/-- C3 counterexample: with every endpoint answering 500, the one-target
and the two-target forwarders return the very same error value for the
same one-alert batch, although one attempted 1 endpoint and the other 2:
the all-endpoints-failed error carries the batch size only, not the
attempted endpoint count. -/
theorem allFailed_error_lacks_attempted_count :
    (Forward mOK1 mOK2 (fun _ _ => some 500) sampleFw [sampleAlert]).result =
      Except.error (ForwardError.allFailed 1) ∧
    (Forward mOK1 mOK2 (fun _ _ => some 500) sampleFwTwo [sampleAlert]).result =
      Except.error (ForwardError.allFailed 1) ∧
    (Forward mOK1 mOK2 (fun _ _ => some 500) sampleFw [sampleAlert]).dispatched.length = 1 ∧
    (Forward mOK1 mOK2 (fun _ _ => some 500) sampleFwTwo [sampleAlert]).dispatched.length = 2 ∧
    (Forward mOK1 mOK2 (fun _ _ => some 500) sampleFw [sampleAlert]).result =
      (Forward mOK1 mOK2 (fun _ _ => some 500) sampleFwTwo [sampleAlert]).result := by
  decide

/-- C3 (amended): on a non-empty batch whose encoding succeeds, every
`(target, endpoint)` unit is dispatched, the success counter counts
exactly the 2xx outcomes, the call succeeds iff that count is positive,
and a zero count yields the all-endpoints-failed error carrying the batch
size. -/
theorem forward_success_iff_some_endpoint_2xx
    (m1 : List Alert → Except String String)
    (m2 : List PostableAlert → Except String String)
    (resp : URL → APIVersion → Option Nat)
    (fw : Forwarder) (alerts : List Alert)
    (calls : List APIVersion) (tbl : List (APIVersion × Option String))
    (hne : alerts ≠ [])
    (henc : encodePhase m1 m2 alerts fw.versions = (calls, Except.ok tbl)) :
    (Forward m1 m2 resp fw alerts).dispatched = dispatchUnits fw ∧
    (Forward m1 m2 resp fw alerts).numSuccess =
      ((dispatchUnits fw).filter (fun uv => is2xx (resp uv.1 uv.2))).length ∧
    ((Forward m1 m2 resp fw alerts).result = Except.ok () ↔
      0 < ((dispatchUnits fw).filter (fun uv => is2xx (resp uv.1 uv.2))).length) ∧
    (((dispatchUnits fw).filter (fun uv => is2xx (resp uv.1 uv.2))).length = 0 →
      (Forward m1 m2 resp fw alerts).result =
        Except.error (ForwardError.allFailed alerts.length)) := by
  have hfun : (fun uv : URL × APIVersion => (postAlerts (resp uv.1 uv.2)).toBool)
      = fun uv => is2xx (resp uv.1 uv.2) :=
    funext fun uv => postAlerts_toBool_eq_is2xx _
  have key : Forward m1 m2 resp fw alerts =
      { result :=
          if 0 < ((dispatchUnits fw).filter (fun uv => is2xx (resp uv.1 uv.2))).length then
            Except.ok ()
          else Except.error (ForwardError.allFailed alerts.length)
        encoderCalls := calls
        dispatched := dispatchUnits fw
        numSuccess :=
          ((dispatchUnits fw).filter (fun uv => is2xx (resp uv.1 uv.2))).length } := by
    simp only [Forward, if_neg hne, henc, hfun]
  rw [key]
  by_cases h0 : 0 < ((dispatchUnits fw).filter (fun uv => is2xx (resp uv.1 uv.2))).length
  · refine ⟨rfl, rfl, ?_, ?_⟩
    · simp [h0]
    · intro hzero
      omega
  · refine ⟨rfl, rfl, ?_, ?_⟩
    · rw [if_neg h0]
      exact ⟨fun hcontra => absurd hcontra (by simp), fun hpos => absurd hpos h0⟩
    · intro _
      rw [if_neg h0]

/-- Witness for the amended C3: two endpoints, one answering 200 and one
500 — the call is an overall success with one success out of two
dispatched units. -/
theorem forward_success_iff_some_endpoint_2xx_witness :
    (Forward mOK1 mOK2
        (fun u _ => if u.host = ("am1:9093") then some 200 else some 500)
        sampleFwTwo [sampleAlert]).result = Except.ok () ∧
    (Forward mOK1 mOK2
        (fun u _ => if u.host = ("am1:9093") then some 200 else some 500)
        sampleFwTwo [sampleAlert]).numSuccess = 1 ∧
    (Forward mOK1 mOK2
        (fun u _ => if u.host = ("am1:9093") then some 200 else some 500)
        sampleFwTwo [sampleAlert]).dispatched.length = 2 := by
  have h := forward_success_iff_some_endpoint_2xx mOK1 mOK2
    (fun u _ => if u.host = ("am1:9093") then some 200 else some 500)
    sampleFwTwo [sampleAlert]
    [APIv1] [(APIv1, some (encodeV1 [sampleAlert]))]
    (by decide) (by rfl)
  refine ⟨h.2.2.1.mpr (by decide), h.2.1.trans (by decide), ?_⟩
  rw [h.1]
  decide

/-- The append-in-a-loop construction of the v2 records is the in-order
image of the batch. -/
theorem foldl_append_toPostable (alerts : List Alert) :
    ∀ acc : List PostableAlert,
      alerts.foldl (fun pAlerts alt => pAlerts ++ [toPostable alt]) acc =
        acc ++ alerts.map toPostable := by
  induction alerts with
  | nil => intro acc; simp
  | cons a l ih =>
      intro acc
      simp only [List.foldl_cons, List.map_cons]
      rw [ih]
      simp

/-- `buildPostableAlerts` is the in-order image of the batch under
`toPostable`. -/
theorem buildPostableAlerts_eq_map (alerts : List Alert) :
    buildPostableAlerts alerts = alerts.map toPostable := by
  have h := foldl_append_toPostable alerts []
  simpa [buildPostableAlerts] using h

/-- The accumulator of `String.intercalate.go` factors out on the left. -/
theorem intercalate_go_append (s : String) :
    ∀ (bs : List String) (x y : String),
      String.intercalate.go (x ++ y) s bs = x ++ String.intercalate.go y s bs := by
  intro bs
  induction bs with
  | nil => intro x y; rfl
  | cons b bs ih =>
      intro x y
      show String.intercalate.go (x ++ y ++ s ++ b) s bs = _
      rw [String.append_assoc, String.append_assoc, ih, ← String.append_assoc y s b]
      rfl

/-- The element-wise slice rendering is the comma-intercalation of the
rendered elements. -/
theorem renderListAux_eq_intercalate {α : Type} (f : α → String) :
    ∀ xs : List α, renderListAux f xs = String.intercalate (",") (xs.map f)
  | [] => rfl
  | [x] => rfl
  | x :: y :: ys => by
      have ih := renderListAux_eq_intercalate f (y :: ys)
      show f x ++ (",") ++ renderListAux f (y :: ys) = _
      rw [ih]
      show _ = String.intercalate.go ((f x ++ (",")) ++ f y) (",") (List.map f ys)
      rw [intercalate_go_append (",") (List.map f ys) (f x ++ (",")) (f y)]
      rfl

/-- C8: both encodings are the bracketed comma-intercalation of one
rendered object per input alert — the object lists have the batch's
length and their i-th entry is the rendering of the i-th alert, so no
alert is dropped, duplicated or reordered. -/
theorem encoders_one_object_per_alert_in_order (alerts : List Alert) :
    ∃ objs1 objs2 : List String,
      encodeV1 alerts = ("[") ++ String.intercalate (",") objs1 ++ ("]") ∧
      encodeV2 alerts = ("[") ++ String.intercalate (",") objs2 ++ ("]") ∧
      objs1.length = alerts.length ∧
      objs2.length = alerts.length ∧
      (∀ i : Nat, objs1[i]? = (alerts[i]?).map renderAlertV1) ∧
      (∀ i : Nat, objs2[i]? =
        (alerts[i]?).map (fun alt => renderPostableAlert (toPostable alt))) := by
  refine ⟨alerts.map renderAlertV1,
    alerts.map (fun alt => renderPostableAlert (toPostable alt)),
    ?_, ?_, by simp, by simp, ?_, ?_⟩
  · rw [encodeV1, renderArr, renderListAux_eq_intercalate]
  · rw [encodeV2, renderArr, renderListAux_eq_intercalate, buildPostableAlerts_eq_map,
      List.map_map]
    rfl
  · intro i
    simp [List.getElem?_map]
  · intro i
    simp [List.getElem?_map]

/-- Unfolding of the byte-wise `≤` on a pair of non-empty strings. -/
theorem charListLe_cons_iff (a b : Char) (as bs : List Char) :
    charListLe (a :: as) (b :: bs) = true ↔
      a < b ∨ (a = b ∧ charListLe as bs = true) := by
  by_cases hab : a < b
  · simp [charListLe, hab]
  · by_cases hba : b < a
    · simp only [charListLe, if_neg hab, if_pos hba]
      constructor
      · intro h
        cases h
      · rintro (h | ⟨rfl, _⟩)
        · exact absurd h hab
        · exact absurd hba (lt_irrefl _)
    · have heq : a = b := le_antisymm (not_lt.mp hba) (not_lt.mp hab)
      simp [charListLe, hab, hba, heq]

/-- The byte-wise `≤` on strings is total. -/
theorem charListLe_total : ∀ as bs : List Char,
    charListLe as bs = true ∨ charListLe bs as = true
  | [], _ => Or.inl rfl
  | _ :: _, [] => Or.inr rfl
  | a :: as, b :: bs => by
      rcases lt_trichotomy a b with h | h | h
      · exact Or.inl ((charListLe_cons_iff a b as bs).mpr (Or.inl h))
      · rcases charListLe_total as bs with hr | hr
        · exact Or.inl ((charListLe_cons_iff a b as bs).mpr (Or.inr ⟨h, hr⟩))
        · exact Or.inr ((charListLe_cons_iff b a bs as).mpr (Or.inr ⟨h.symm, hr⟩))
      · exact Or.inr ((charListLe_cons_iff b a bs as).mpr (Or.inl h))

/-- The byte-wise `≤` on strings is transitive. -/
theorem charListLe_trans : ∀ as bs cs : List Char,
    charListLe as bs = true → charListLe bs cs = true → charListLe as cs = true
  | [], _, _, _, _ => rfl
  | _ :: _, [], _, h1, _ => by cases h1
  | _ :: _, _ :: _, [], _, h2 => by cases h2
  | a :: as, b :: bs, c :: cs, h1, h2 => by
      rcases (charListLe_cons_iff a b as bs).mp h1 with hab | ⟨rfl, hr1⟩
      · rcases (charListLe_cons_iff b c bs cs).mp h2 with hbc | ⟨rfl, _⟩
        · exact (charListLe_cons_iff a c as cs).mpr (Or.inl (lt_trans hab hbc))
        · exact (charListLe_cons_iff a b as cs).mpr (Or.inl hab)
      · rcases (charListLe_cons_iff a c bs cs).mp h2 with hbc | ⟨rfl, hr2⟩
        · exact (charListLe_cons_iff a c as cs).mpr (Or.inl hbc)
        · exact (charListLe_cons_iff a a as cs).mpr
            (Or.inr ⟨rfl, charListLe_trans as bs cs hr1 hr2⟩)

/-- The byte-wise `≤` on strings is antisymmetric. -/
theorem charListLe_antisymm : ∀ as bs : List Char,
    charListLe as bs = true → charListLe bs as = true → as = bs
  | [], [], _, _ => rfl
  | [], _ :: _, _, h2 => by cases h2
  | _ :: _, [], h1, _ => by cases h1
  | a :: as, b :: bs, h1, h2 => by
      rcases (charListLe_cons_iff a b as bs).mp h1 with hab | ⟨rfl, hr1⟩
      · rcases (charListLe_cons_iff b a bs as).mp h2 with hba | ⟨rfl, _⟩
        · exact absurd (lt_trans hab hba) (lt_irrefl _)
        · exact absurd hab (lt_irrefl _)
      · rcases (charListLe_cons_iff a a bs as).mp h2 with hba | ⟨_, hr2⟩
        · exact absurd hba (lt_irrefl _)
        · rw [charListLe_antisymm as bs hr1 hr2]

instance : IsTotal String strLe :=
  ⟨fun a b => charListLe_total a.data b.data⟩

instance : IsTrans String strLe :=
  ⟨fun a b c => charListLe_trans a.data b.data c.data⟩

instance : IsAntisymm String strLe :=
  ⟨fun a b h1 h2 => by
    have h := charListLe_antisymm a.data b.data h1 h2
    cases a
    cases b
    exact congrArg String.mk h⟩

/-- Looking a key up in a Go map does not depend on the iteration order,
provided the keys are distinct (they always are in a genuine map). -/
theorem lookup_eq_of_perm (k : String) {l1 l2 : List (String × String)}
    (h : l1.Perm l2) : (l1.map Prod.fst).Nodup → l1.lookup k = l2.lookup k := by
  induction h with
  | nil => intro _; rfl
  | cons x h ih =>
      intro hnd
      rw [List.map_cons] at hnd
      by_cases hk : k == x.1
      · simp [List.lookup, hk]
      · simp only [List.lookup, hk]
        exact ih (List.nodup_cons.mp hnd).2
  | swap x y l =>
      intro hnd
      have hnd' : (y.1 :: x.1 :: l.map Prod.fst).Nodup := by simpa using hnd
      have hyx : y.1 ≠ x.1 := by
        have hmem := (List.nodup_cons.mp hnd').1
        intro hcontra
        exact hmem (by rw [hcontra]; exact List.mem_cons_self _ _)
      by_cases hky : k == y.1
      · have hkx : (k == x.1) = false := by
          refine beq_eq_false_iff_ne.mpr ?_
          rw [eq_of_beq hky]
          exact hyx
        simp [List.lookup, hky, hkx]
      · by_cases hkx : k == x.1 <;> simp [List.lookup, hky, hkx]
  | trans h1 h2 ih1 ih2 =>
      intro hnd
      rw [ih1 hnd, ih2 ((h1.map Prod.fst).nodup hnd)]

/-- Rendering a Go map is independent of the map's iteration order. -/
theorem renderKVMap_perm {es1 es2 : List (String × String)}
    (h : es1.Perm es2) (hnd : (es1.map Prod.fst).Nodup) :
    renderKVMap es1 = renderKVMap es2 := by
  have hkeys : List.insertionSort strLe (es1.map Prod.fst) =
      List.insertionSort strLe (es2.map Prod.fst) :=
    List.eq_of_perm_of_sorted
      ((List.perm_insertionSort strLe _).trans
        ((h.map Prod.fst).trans (List.perm_insertionSort strLe _).symm))
      (List.sorted_insertionSort strLe _) (List.sorted_insertionSort strLe _)
  have hfun : (fun k => jstr k ++ (":") ++ jstr ((es1.lookup k).getD (""))) =
      (fun k => jstr k ++ (":") ++ jstr ((es2.lookup k).getD (""))) :=
    funext fun k => by rw [lookup_eq_of_perm k h hnd]
  rw [renderKVMap, renderKVMap, hkeys, hfun]

/-- Two alerts that agree up to the iteration order of their label and
annotation maps (the only nondeterminism a Go map introduces). -/
def AlertEquiv (a b : Alert) : Prop :=
  a.status = b.status ∧ a.labels.Perm b.labels ∧ a.annots.Perm b.annots ∧
    a.startsAt = b.startsAt ∧ a.endsAt = b.endsAt ∧
    a.generatorURL = b.generatorURL ∧ a.fingerprint = b.fingerprint

/-- The Go map invariant: distinct label keys and annotation keys. -/
def GoodAlert (a : Alert) : Prop :=
  (a.labels.map Prod.fst).Nodup ∧ (a.annots.map Prod.fst).Nodup

instance (a b : Alert) : Decidable (AlertEquiv a b) := by
  unfold AlertEquiv
  infer_instance

instance (a : Alert) : Decidable (GoodAlert a) := by
  unfold GoodAlert
  infer_instance

/-- The v1 rendering of one alert only depends on the alert up to map
iteration order. -/
theorem renderAlertV1_congr {a b : Alert} (hg : GoodAlert a) (h : AlertEquiv a b) :
    renderAlertV1 a = renderAlertV1 b := by
  obtain ⟨hs, hl, ha, hst, hen, hgen, hf⟩ := h
  rw [renderAlertV1, renderAlertV1, hs, hst, hen, hgen, hf,
    renderKVMap_perm hl hg.1, renderKVMap_perm ha hg.2]

/-- The v2 rendering of one alert only depends on the alert up to map
iteration order. -/
theorem renderPostableAlert_congr {a b : Alert} (hg : GoodAlert a) (h : AlertEquiv a b) :
    renderPostableAlert (toPostable a) = renderPostableAlert (toPostable b) := by
  obtain ⟨hs, hl, ha, hst, hen, hgen, hf⟩ := h
  rw [renderPostableAlert, renderPostableAlert]
  simp only [toPostable, kvToLabelSet, renderGoMap, goMapLen, Option.getD_some]
  rw [hst, hen, hgen, renderKVMap_perm hl hg.1, renderKVMap_perm ha hg.2, ha.length_eq]

/-- Batch-level congruence of both renderings. -/
theorem map_render_congr {as bs : List Alert} (h : List.Forall₂ AlertEquiv as bs) :
    (∀ a ∈ as, GoodAlert a) →
    as.map renderAlertV1 = bs.map renderAlertV1 ∧
      as.map (fun alt => renderPostableAlert (toPostable alt)) =
        bs.map (fun alt => renderPostableAlert (toPostable alt)) := by
  induction h with
  | nil => intro _; exact ⟨rfl, rfl⟩
  | cons hab h ih =>
      intro hgood
      have hg := hgood _ (List.mem_cons_self _ _)
      have htail := ih (fun a ha => hgood a (List.mem_cons_of_mem _ ha))
      refine ⟨?_, ?_⟩
      · simp only [List.map_cons, renderAlertV1_congr hg hab, htail.1]
      · simp only [List.map_cons, renderPostableAlert_congr hg hab, htail.2]

/-- C9: the encoders are pure functions of the batch: two batches that
are the same alerts with the label/annotation maps iterated in any order
produce byte-identical v1 and v2 payloads (given the Go map invariant of
distinct keys), so re-encoding the same batch always yields the same
bytes. -/
theorem encoders_deterministic_on_map_order (as bs : List Alert)
    (hgood : ∀ a ∈ as, GoodAlert a) (h : List.Forall₂ AlertEquiv as bs) :
    encodeV1 as = encodeV1 bs ∧ encodeV2 as = encodeV2 bs := by
  obtain ⟨h1, h2⟩ := map_render_congr h hgood
  constructor
  · rw [encodeV1, encodeV1, renderArr, renderArr,
      renderListAux_eq_intercalate, renderListAux_eq_intercalate, h1]
  · rw [encodeV2, encodeV2, renderArr, renderArr,
      renderListAux_eq_intercalate, renderListAux_eq_intercalate,
      buildPostableAlerts_eq_map, buildPostableAlerts_eq_map,
      List.map_map, List.map_map]
    have hcomp : (renderPostableAlert ∘ toPostable) =
        fun alt => renderPostableAlert (toPostable alt) := rfl
    rw [hcomp, h2]

/-- Witness for C9: one alert with its two labels listed in either
order encodes to the same v1 and v2 bytes. -/
theorem encoders_deterministic_on_map_order_witness :
    encodeV1 [{ status := ("firing")
                labels := [(("alertname"), ("foo")), (("severity"), ("critical"))]
                annots := [], startsAt := ("S"), endsAt := ("E")
                generatorURL := ("G"), fingerprint := ("F") }] =
      encodeV1 [{ status := ("firing")
                  labels := [(("severity"), ("critical")), (("alertname"), ("foo"))]
                  annots := [], startsAt := ("S"), endsAt := ("E")
                  generatorURL := ("G"), fingerprint := ("F") }] ∧
    encodeV2 [{ status := ("firing")
                labels := [(("alertname"), ("foo")), (("severity"), ("critical"))]
                annots := [], startsAt := ("S"), endsAt := ("E")
                generatorURL := ("G"), fingerprint := ("F") }] =
      encodeV2 [{ status := ("firing")
                  labels := [(("severity"), ("critical")), (("alertname"), ("foo"))]
                  annots := [], startsAt := ("S"), endsAt := ("E")
                  generatorURL := ("G"), fingerprint := ("F") }] :=
  encoders_deterministic_on_map_order _ _ (by decide)
    (List.Forall₂.cons ⟨rfl, by decide, by decide, rfl, rfl, rfl, rfl⟩ List.Forall₂.nil)

end Collector
